import Mathlib

/-!
Verification of the scoring pipeline of the Sepsis-Delirium prediction form
(`app.py`, the grouped-form variant, and `new_app.py`, the flat-form variant).

The reproducible logic is small and identical in both variants past the form:
validate the submitted record against the required feature names (accumulating
one English and one Chinese message per offending field), assemble and reorder
the model-input columns, call the opaque classifier for a probability, compare
it against the loaded threshold (`prediction = 1 if proba >= optimal_threshold
else 0`), and map the probability to a risk label by scanning the ascending
boundaries `[0, 0.3, 0.7, 1.0]` for the first one strictly above it.

Probabilities and thresholds are embedded as rationals; the submitted values
are embedded as `PyVal` (a float, or the NaN missing-value marker that
`pd.isna` detects — the form widgets only ever produce numeric values).  The
opaque classifier `model.predict_proba` is a parameter `score` returning
`Except String ℚ`: `Except.error` stands for the scoring call throwing, whose
message the handler's `except` block reports.
-/

/-- Values held by the submitted record `user_input`.  The form widgets
(`st.number_input`, `st.radio`, `st.slider`) produce floats or ints; `nan`
stands for the missing-value markers (`NaN`/`None`) that `pd.isna` flags. -/
inductive PyVal where
  | num (q : ℚ)
  | nan
  deriving DecidableEq

/-- Embedding of `pd.isna` on the values a submission can hold. -/
def pdIsna : PyVal → Bool
  | .nan => true
  | .num _ => false

/-- English half of the message pair appended for an offending field:
`f"'{eng_name}' requires a valid value"` (both variants). -/
def reqMsgEn (name : String) : String :=
  "\x27" ++ name ++ "\x27 requires a valid value"

/-- Chinese half of the message pair appended for an offending field:
`f"'{eng_name}' 需要提供有效值"` (both variants). -/
def reqMsgCn (name : String) : String :=
  "\x27" ++ name ++ "\x27 需要提供有效值"

/-- The per-field validity test of both variants:
`eng_name not in user_input or pd.isna(user_input[eng_name])`. -/
def isBad (user_input : List (String × PyVal)) (name : String) : Bool :=
  match user_input.lookup name with
  | none => true
  | some v => pdIsna v

/-- The validation loop of both variants: scan the required names in order and
append the English and the Chinese message for every offending field.
`app.py` iterates the feature-group entries and parses each `eng_name` on the
fly (here pre-parsed into `required_fields`); `new_app.py` iterates
`feature_names` directly. -/
def error_msgs (required : List String) (user_input : List (String × PyVal)) :
    List String :=
  required.foldl
    (fun acc name =>
      if isBad user_input name then acc ++ [reqMsgEn name, reqMsgCn name]
      else acc)
    []

/-- The hard-coded feature groups of `app.py` (group title, bilingual
feature-info strings). -/
def feature_groups : List (String × List String) :=
  [ ("Basic Information / 基础情况",
      [ "admission_age/年龄 (years)",
        "hypertension/高血压" ]),
    ("Bedside Signs / 床旁体征",
      [ "sbp/收缩压 (mmHg)",
        "spo2/血氧饱和度 (%)",
        "temperature/体温 (℃)",
        "urineoutput_24h/尿量 (ml)" ]),
    ("Laboratory Tests / 实验室检查",
      [ "platelet/血小板计数 (K/μL)",
        "creatinine/血清肌酐 (mg/dL, 1mg/dL=88.4μmol/L)",
        "potassium/钾离子浓度 (mmol/L)",
        "hemoglobin/血红蛋白 (g/dL)" ]),
    ("Clinical Scores / 临床评分",
      [ "charlson_comorbidity_index/Charlson共病指数",
        "gcs_min/最低格拉斯哥昏迷评分",
        "apsiii/急性生理评分III",
        "oasis/牛津急性疾病严重程度评分" ]) ]

/-- Strip leading and trailing whitespace from a character list (the effect of
Python `str.strip()` on these ASCII names). -/
def trimChars (cs : List Char) : List Char :=
  ((cs.dropWhile (·.isWhitespace)).reverse.dropWhile (·.isWhitespace)).reverse

/-- The English-name parse `feat_info.split("/")[0].strip()` used throughout
`app.py`: the prefix before the first `/`, stripped. -/
def engName (s : String) : String :=
  String.mk (trimChars (s.data.takeWhile (· ≠ '/')))

/-- The feature-info strings of `app.py` in iteration order
(`for group_features in feature_groups.values(): for feat_info in ...`). -/
def requiredInfos : List String :=
  (feature_groups.map Prod.snd).flatten

/-- The 14 required English field names of `app.py`, parsed from the
feature groups exactly as the validation loop parses them. -/
def required_fields : List String :=
  requiredInfos.map engName

/-- Column selection `input_df[feature_names]` on a one-row frame: look every
requested column up by name; a missing column raises `KeyError` (modelled as
`none`). -/
def order (row : List (String × PyVal)) : List String → Option (List PyVal)
  | [] => some []
  | n :: ns =>
    match row.lookup n, order row ns with
    | some v, some vs => some (v :: vs)
    | _, _ => none

/-- The model-input assembly of `app.py`: for each loaded feature name, scan
the hard-coded feature groups for a matching `eng_name`; on a match copy the
submitted value (`input_data[feat] = user_input[eng_name]`, a `KeyError` —
`none` — if the submission lacks it); with no match the feature is silently
skipped. -/
def input_data (feature_names : List String)
    (user_input : List (String × PyVal)) :
    Option (List (String × PyVal)) :=
  feature_names.foldlM
    (fun acc feat =>
      if required_fields.contains feat then
        match user_input.lookup feat with
        | some v => some (acc ++ [(feat, v)])
        | none => none
      else some acc)
    []

/-- Binary decision of both variants:
`prediction = 1 if proba >= optimal_threshold else 0`. -/
def prediction (proba optimal_threshold : ℚ) : ℕ :=
  if proba ≥ optimal_threshold then 1 else 0

/-- The ascending bucket boundaries `risk_levels = [0, 0.3, 0.7, 1.0]`. -/
def risk_levels : List ℚ :=
  [0, 3 / 10, 7 / 10, 1]

/-- The three bucket display labels. -/
def labels : List String :=
  ["Low Risk / 低风险", "Moderate Risk / 中度风险", "High Risk / 高风险"]

/-- Index of the first list element strictly above `p`, the embedding of
`next(i for i, level in enumerate(risk_levels) if proba < level)`; `none` is
the `StopIteration` the exhausted generator raises. -/
def firstIdxLt (p : ℚ) : List ℚ → Option ℕ
  | [] => none
  | l :: ls => if p < l then some 0 else (firstIdxLt p ls).map (· + 1)

/-- The bucket index `current_level = next(...) - 1` of both variants (an
`Int`, since Python list indexing accepts negative indices). -/
def current_level (proba : ℚ) : Option ℤ :=
  (firstIdxLt proba risk_levels).map (fun i => (i : ℤ) - 1)

/-- Python list indexing `xs[i]`: negative indices count from the end;
out-of-range raises (modelled as `none`). -/
def pyGet (xs : List String) (i : ℤ) : Option String :=
  if 0 ≤ i then xs.get? i.toNat
  else if (-i).toNat ≤ xs.length then xs.get? (xs.length - (-i).toNat)
  else none

/-- The displayed risk label `labels[current_level]`. -/
def riskLabel (proba : ℚ) : Option String :=
  (current_level proba).bind (pyGet labels)

/-- Terminal state of one submission of the handler.  `validationError` is the
missing-field report (scoring never invoked); `predictionError` is the
`except Exception` branch showing `Prediction error: {e}` in both languages
plus the check-your-input hint; `success` is a rendered probability, binary
decision and risk label. -/
inductive Outcome where
  | validationError (msgs : List String)
  | predictionError (msgs : List String)
  | success (proba : ℚ) (label : ℕ) (risk : String)
  deriving DecidableEq

/-- The three lines the `except Exception as e` branch renders:
`st.error(f"Prediction error: {str(e)}")`, its Chinese duplicate, and the
`st.info` hint to check the input format. -/
def renderPredictionError (m : String) : List String :=
  [ "Prediction error: " ++ m,
    "预测过程中发生错误: " ++ m,
    "Please check the input data format / 请检查输入数据的格式是否正确" ]

/-- The scoring tail shared by both variants, given the ordered input row:
call the classifier, threshold the probability, compute the risk label.  A
throwing scorer, a `KeyError`, or the `StopIteration` of the bucket scan at
`proba = 1.0` all land in the same `except` branch.  (In the source the
probability is rendered before the bucket scan runs, so the `StopIteration`
case additionally leaves a partially rendered page; the `Outcome` here records
the terminal state.) -/
def runScoring (score : List PyVal → Except String ℚ) (optimal_threshold : ℚ)
    (vec : List PyVal) : Outcome :=
  match score vec with
  | .error m => .predictionError (renderPredictionError m)
  | .ok proba =>
    match riskLabel proba with
    | none => .predictionError (renderPredictionError "StopIteration")
    | some risk => .success proba (prediction proba optimal_threshold) risk

/-- One submission of `new_app.py`: validate against `feature_names`, build
the one-row frame from `user_input` directly, reorder, score. -/
def newAppSubmit (feature_names : List String)
    (score : List PyVal → Except String ℚ) (optimal_threshold : ℚ)
    (user_input : List (String × PyVal)) : Outcome :=
  let msgs := error_msgs feature_names user_input
  if msgs = [] then
    match order user_input feature_names with
    | none => .predictionError (renderPredictionError "KeyError")
    | some vec => runScoring score optimal_threshold vec
  else .validationError msgs

/-- One submission of `app.py`: validate against the parsed feature-group
names, assemble `input_data` from the loaded `feature_names`, reorder the
columns to `feature_names`, score. -/
def appSubmit (feature_names : List String)
    (score : List PyVal → Except String ℚ) (optimal_threshold : ℚ)
    (user_input : List (String × PyVal)) : Outcome :=
  let msgs := error_msgs required_fields user_input
  if msgs = [] then
    match input_data feature_names user_input with
    | none => .predictionError (renderPredictionError "KeyError")
    | some row =>
      match order row feature_names with
      | none => .predictionError (renderPredictionError "KeyError")
      | some vec => runScoring score optimal_threshold vec
  else .validationError msgs

/-! ### Helper lemmas -/

theorem error_msgs_foldl (required : List String)
    (ui : List (String × PyVal)) (acc : List String) :
    required.foldl
      (fun acc name =>
        if isBad ui name then acc ++ [reqMsgEn name, reqMsgCn name] else acc)
      acc
      = acc ++ (required.filter (isBad ui)).flatMap
          (fun n => [reqMsgEn n, reqMsgCn n]) := by
  induction required generalizing acc with
  | nil => simp
  | cons n ns ih =>
    simp only [List.foldl_cons, List.filter_cons]
    cases h : isBad ui n with
    | true => simp [h, ih]
    | false => simp [h, ih]

theorem error_msgs_eq (required : List String) (ui : List (String × PyVal)) :
    error_msgs required ui
      = (required.filter (isBad ui)).flatMap
          (fun n => [reqMsgEn n, reqMsgCn n]) := by
  simpa using error_msgs_foldl required ui []

theorem isBad_false_isSome {ui : List (String × PyVal)} {n : String}
    (h : isBad ui n = false) : (ui.lookup n).isSome = true := by
  unfold isBad at h
  cases hl : ui.lookup n with
  | none => rw [hl] at h; exact absurd h (by simp)
  | some v => simp

theorem order_eq_map (ui : List (String × PyVal)) :
    ∀ spec : List String, (∀ n ∈ spec, (ui.lookup n).isSome = true) →
      order ui spec
        = some (spec.map (fun n => (ui.lookup n).getD PyVal.nan)) := by
  intro spec
  induction spec with
  | nil => intro _; rfl
  | cons n ns ih =>
    intro h
    obtain ⟨v, hv⟩ :=
      Option.isSome_iff_exists.mp (h n (List.mem_cons_self n ns))
    have hns := ih (fun m hm => h m (List.mem_cons_of_mem _ hm))
    simp [order, hv, hns]

/-! ### Claims -/

/-- C2: the classify operation of both variants returns Positive (1) exactly
when the probability is at least the threshold — a probability equal to the
threshold is Positive (non-strict comparison in
`prediction = 1 if proba >= optimal_threshold else 0`). -/
theorem prediction_positive_iff_ge_threshold (p t : ℚ) :
    prediction p t = 1 ↔ p ≥ t := by
  unfold prediction
  split <;> simp_all

/-- C8: classify is monotonic in the probability: if `p1` already clears the
threshold and `p2 ≥ p1`, then `p2` is classified Positive. -/
theorem prediction_monotone (t p1 p2 : ℚ) (h1 : p1 ≥ t) (h2 : p2 ≥ p1) :
    prediction p2 t = 1 := by
  unfold prediction
  rw [if_pos (le_trans h1 h2)]

/-- Witness for C8 at `t = p1 = 0`, `p2 = 1`. -/
theorem prediction_monotone_witness : prediction 1 0 = 1 :=
  prediction_monotone 0 0 1 (le_refl 0) zero_le_one

/-- C1: evaluation of the bucket scan at its boundaries.  The scan is correct
at `0`, `0.3` and `0.7` (Low, Moderate, High), but at probability exactly
`1.0` no boundary in `[0, 0.3, 0.7, 1.0]` strictly exceeds the value, so the
generator of `current_level` is exhausted (`StopIteration`), no bucket is
produced, and the submission is reported through the `except` branch as a
prediction error instead of resolving to High — the spec's intended
`bucket(1.0) = High` does not hold on this code. -/
theorem current_level_boundary_eval :
    riskLabel 0 = some "Low Risk / 低风险" ∧
    riskLabel (3 / 10) = some "Moderate Risk / 中度风险" ∧
    riskLabel (7 / 10) = some "High Risk / 高风险" ∧
    current_level 1 = none ∧ riskLabel 1 = none ∧
    runScoring (fun _ => Except.ok 1) (4585 / 10000) []
      = Outcome.predictionError (renderPredictionError "StopIteration") := by
  norm_num [riskLabel, current_level, firstIdxLt, risk_levels, labels, pyGet,
    runScoring]
  decide

/-- C6 counterexample: at threshold `0.4585` a probability of `0.62` is
classified Positive, but its bucket is Moderate, not High — `0.62 < 0.7`, so
the ascending scan stops at boundary `0.7` and selects the middle bucket,
refuting the claimed `bucket = High`. -/
theorem bucket_at_062_is_moderate_not_high :
    riskLabel (62 / 100) = some "Moderate Risk / 中度风险" ∧
    riskLabel (62 / 100) ≠ some "High Risk / 高风险" := by
  norm_num [riskLabel, current_level, firstIdxLt, risk_levels, labels, pyGet]
  decide

/-- C6 amended: with threshold `0.4585`, probability `0.62` yields label
Positive and bucket Moderate, and probability `0.10` yields label Negative
and bucket Low. -/
theorem endtoend_scenarios_eval :
    prediction (62 / 100) (4585 / 10000) = 1 ∧
    riskLabel (62 / 100) = some "Moderate Risk / 中度风险" ∧
    prediction (1 / 10) (4585 / 10000) = 0 ∧
    riskLabel (1 / 10) = some "Low Risk / 低风险" := by
  norm_num [prediction, riskLabel, current_level, firstIdxLt, risk_levels,
    labels, pyGet]

/-- C3: a submission missing at least one required field fails validation, and
the accumulated messages name every offending field — for every required name
the per-field test flags, both of its messages appear in the report — not just
the first one encountered. -/
theorem error_msgs_enumerates_missing (required : List String)
    (ui : List (String × PyVal))
    (h : ∃ n ∈ required, ui.lookup n = none) :
    error_msgs required ui ≠ [] ∧
    ∀ n ∈ required, isBad ui n = true →
      reqMsgEn n ∈ error_msgs required ui ∧
      reqMsgCn n ∈ error_msgs required ui := by
  obtain ⟨n0, hn0, hl0⟩ := h
  have hbad0 : isBad ui n0 = true := by unfold isBad; rw [hl0]
  have hmem : ∀ n ∈ required, isBad ui n = true →
      reqMsgEn n ∈ error_msgs required ui ∧
      reqMsgCn n ∈ error_msgs required ui := by
    intro n hn hbad
    rw [error_msgs_eq]
    have hf : n ∈ required.filter (isBad ui) := List.mem_filter.mpr ⟨hn, hbad⟩
    exact ⟨List.mem_flatMap.mpr ⟨n, hf, by simp⟩,
      List.mem_flatMap.mpr ⟨n, hf, by simp⟩⟩
  exact ⟨List.ne_nil_of_mem (hmem n0 hn0 hbad0).1, hmem⟩

/-- Witness for C3: a two-field requirement with the second field absent from
the submission. -/
theorem error_msgs_enumerates_missing_witness :
    error_msgs ["admission_age", "sbp"] [("admission_age", PyVal.num 60)] ≠ [] ∧
    ∀ n ∈ ["admission_age", "sbp"],
      isBad [("admission_age", PyVal.num 60)] n = true →
      reqMsgEn n ∈
        error_msgs ["admission_age", "sbp"] [("admission_age", PyVal.num 60)] ∧
      reqMsgCn n ∈
        error_msgs ["admission_age", "sbp"] [("admission_age", PyVal.num 60)] :=
  error_msgs_enumerates_missing _ _ ⟨"sbp", by decide, by decide⟩

/-- C9: a required field that is absent, or holds a value `pd.isna` flags (the
missing-value marker, the only non-numeric value an input record can hold),
makes validation fail and puts that field's messages in the report. -/
theorem validate_rejects_nonnumeric (required : List String)
    (ui : List (String × PyVal)) (n : String)
    (h1 : n ∈ required) (h2 : isBad ui n = true) :
    error_msgs required ui ≠ [] ∧
    reqMsgEn n ∈ error_msgs required ui ∧
    reqMsgCn n ∈ error_msgs required ui := by
  have hf : n ∈ required.filter (isBad ui) := List.mem_filter.mpr ⟨h1, h2⟩
  have hEn : reqMsgEn n ∈ error_msgs required ui := by
    rw [error_msgs_eq]; exact List.mem_flatMap.mpr ⟨n, hf, by simp⟩
  have hCn : reqMsgCn n ∈ error_msgs required ui := by
    rw [error_msgs_eq]; exact List.mem_flatMap.mpr ⟨n, hf, by simp⟩
  exact ⟨List.ne_nil_of_mem hEn, hEn, hCn⟩

/-- Witness for C9: a required field holding the `pd.isna`-flagged marker. -/
theorem validate_rejects_nonnumeric_witness :
    error_msgs ["potassium"] [("potassium", PyVal.nan)] ≠ [] ∧
    reqMsgEn "potassium" ∈ error_msgs ["potassium"] [("potassium", PyVal.nan)] ∧
    reqMsgCn "potassium" ∈ error_msgs ["potassium"] [("potassium", PyVal.nan)] :=
  validate_rejects_nonnumeric _ _ _ (by decide) (by decide)

/-- C5: a valid record (every required field present and numeric) passes
validation with an empty report, and column selection succeeds with a vector
of one value per spec entry whose i-th element is the record's value at the
i-th spec name. -/
theorem valid_record_order (spec : List String) (ui : List (String × PyVal))
    (h : ∀ n ∈ spec, isBad ui n = false) :
    error_msgs spec ui = [] ∧
    ∃ v, order ui spec = some v ∧ v.length = spec.length ∧
      ∀ (i : ℕ) (hi : i < spec.length),
        v.get? i = ui.lookup (spec.get ⟨i, hi⟩) := by
  constructor
  · rw [error_msgs_eq]
    rw [List.filter_eq_nil_iff.mpr (by intro a ha; simp [h a ha])]
    rfl
  · refine ⟨spec.map (fun n => (ui.lookup n).getD PyVal.nan),
      order_eq_map ui spec (fun n hn => isBad_false_isSome (h n hn)),
      by simp, ?_⟩
    intro i hi
    obtain ⟨v, hv⟩ := Option.isSome_iff_exists.mp
      (isBad_false_isSome (h _ (spec.get_mem i hi)))
    rw [List.get?_eq_getElem?, List.getElem?_map, List.getElem?_eq_getElem hi]
    simp only [List.get_eq_getElem] at hv
    simp [hv]

/-- Witness for C5: a fully valid two-field record. -/
theorem valid_record_order_witness :
    error_msgs ["admission_age", "sbp"]
      [("admission_age", PyVal.num 60), ("sbp", PyVal.num 120)] = [] ∧
    ∃ v, order [("admission_age", PyVal.num 60), ("sbp", PyVal.num 120)]
        ["admission_age", "sbp"] = some v ∧
      v.length = (["admission_age", "sbp"] : List String).length ∧
      ∀ (i : ℕ) (hi : i < (["admission_age", "sbp"] : List String).length),
        v.get? i =
          [("admission_age", PyVal.num 60), ("sbp", PyVal.num 120)].lookup
            ((["admission_age", "sbp"] : List String).get ⟨i, hi⟩) :=
  valid_record_order _ _ (by decide)

/-- Submission used to exercise the two-missing-fields scenario: 12 of the 14
required fields of `app.py` carry numeric values; `sbp` and `oasis` are
absent. -/
def twoMissingInput : List (String × PyVal) :=
  [ ("admission_age", PyVal.num 60), ("hypertension", PyVal.num 1),
    ("spo2", PyVal.num 98), ("temperature", PyVal.num 37),
    ("urineoutput_24h", PyVal.num 1000), ("platelet", PyVal.num 200),
    ("creatinine", PyVal.num 1), ("potassium", PyVal.num 4),
    ("hemoglobin", PyVal.num 12), ("charlson_comorbidity_index", PyVal.num 0),
    ("gcs_min", PyVal.num 15), ("apsiii", PyVal.num 30) ]

/-- C4: when the per-field test flags exactly two of the 14 required fields of
`app.py`, the report names exactly those two fields — their two message pairs
and nothing else — and the handler stops at the validation report; the outcome
is the same for every classifier and threshold, so the classifier is never
invoked. -/
theorem two_missing_fields_report (ui : List (String × PyVal))
    (h : (required_fields.filter (isBad ui)).length = 2) :
    ∃ n1 n2, n1 ≠ n2 ∧ required_fields.filter (isBad ui) = [n1, n2] ∧
      error_msgs required_fields ui
        = [reqMsgEn n1, reqMsgCn n1, reqMsgEn n2, reqMsgCn n2] ∧
      ∀ fns score t, appSubmit fns score t ui
        = Outcome.validationError (error_msgs required_fields ui) := by
  obtain ⟨n1, n2, hf⟩ := List.length_eq_two.mp h
  have hnodup : (required_fields.filter (isBad ui)).Nodup :=
    List.Nodup.filter _ (by decide)
  rw [hf] at hnodup
  have hne : n1 ≠ n2 := by
    simp only [List.nodup_cons, List.mem_singleton] at hnodup
    exact hnodup.1
  have hmsgs : error_msgs required_fields ui
      = [reqMsgEn n1, reqMsgCn n1, reqMsgEn n2, reqMsgCn n2] := by
    rw [error_msgs_eq, hf]; rfl
  refine ⟨n1, n2, hne, hf, hmsgs, ?_⟩
  intro fns score t
  simp only [appSubmit, hmsgs]
  rfl

/-- Witness for C4: `twoMissingInput` is missing exactly `sbp` and `oasis`. -/
theorem two_missing_fields_report_witness :
    ∃ n1 n2, n1 ≠ n2 ∧
      required_fields.filter (isBad twoMissingInput) = [n1, n2] ∧
      error_msgs required_fields twoMissingInput
        = [reqMsgEn n1, reqMsgCn n1, reqMsgEn n2, reqMsgCn n2] ∧
      ∀ fns score t, appSubmit fns score t twoMissingInput
        = Outcome.validationError (error_msgs required_fields twoMissingInput) :=
  two_missing_fields_report _ (by decide)

/-- C7: when the classifier invocation throws on a structurally valid input,
the handler reports the underlying message together with the
check-your-input-format hint through the `except` branch, and the outcome is
that error report alone — not a `success`, so no partial result and no
substituted default probability; the handler is a pure function of one
submission, so the next submission starts fresh. -/
theorem scoring_error_reported (fns : List String)
    (score : List PyVal → Except String ℚ) (t : ℚ)
    (ui : List (String × PyVal)) (vec : List PyVal) (m : String)
    (hval : error_msgs fns ui = [])
    (hord : order ui fns = some vec)
    (hscore : score vec = Except.error m) :
    newAppSubmit fns score t ui
      = Outcome.predictionError (renderPredictionError m) := by
  simp [newAppSubmit, hval, hord, runScoring, hscore]

/-- Witness for C7: a one-field valid submission and a classifier that throws
with a malformed-shape message. -/
theorem scoring_error_reported_witness :
    newAppSubmit ["sbp"] (fun _ => Except.error "malformed input shape") 0
        [("sbp", PyVal.num 120)]
      = Outcome.predictionError (renderPredictionError "malformed input shape") :=
  scoring_error_reported _ _ _ _ [PyVal.num 120] _ rfl rfl rfl

/-- The loaded feature list of the C10 scenario: the 14 names the form
renders plus one (`ventilation`) with no matching entry in the hard-coded
feature groups of `app.py`. -/
def ventFeatureNames : List String :=
  required_fields ++ ["ventilation"]

/-- The submission of the C10 scenario: every form field (the 14 group
names) filled with a numeric value. -/
def ventUserInput : List (String × PyVal) :=
  required_fields.map (fun n => (n, PyVal.num 0))

/-- C10: in the grouped-form variant, with a loaded feature list containing a
name (`ventilation`) that matches no entry of the hard-coded feature groups,
validation (which checks only the group names) passes with no messages, the
model-input assembly silently omits that feature, the subsequent column
reordering fails (`KeyError`), and the submission is reported as a prediction
error rather than a validation error. -/
theorem app_unmatched_feature_prediction_error :
    error_msgs required_fields ventUserInput = [] ∧
    input_data ventFeatureNames ventUserInput = some ventUserInput ∧
    ventUserInput.lookup "ventilation" = none ∧
    order ventUserInput ventFeatureNames = none ∧
    ∀ score t, appSubmit ventFeatureNames score t ventUserInput
      = Outcome.predictionError (renderPredictionError "KeyError") := by
  refine ⟨rfl, rfl, rfl, rfl, ?_⟩
  intro score t
  rfl

/-- Witness for C2 at the boundary `p = t = 0.4585`. -/
theorem prediction_positive_iff_ge_threshold_witness :
    prediction (4585 / 10000) (4585 / 10000) = 1 ↔
      (4585 / 10000 : ℚ) ≥ 4585 / 10000 :=
  prediction_positive_iff_ge_threshold (4585 / 10000) (4585 / 10000)

/-- Witness for C10 at a concrete classifier and threshold. -/
theorem app_unmatched_feature_prediction_error_witness :
    appSubmit ventFeatureNames (fun _ => Except.ok 0) 0 ventUserInput
      = Outcome.predictionError (renderPredictionError "KeyError") :=
  app_unmatched_feature_prediction_error.2.2.2.2 (fun _ => Except.ok 0) 0
